import Mathlib

/-!
Verification of the TLE parser and orbital-element calculator of the satmad
repository.  The repository's visible source is the notebook
`docs/examples/sso_analysis.ipynb`, which exercises `TLE.from_tle`,
`TLE.sm_axis`, `TLE.node_rotation_rate` and the frozen-orbit eccentricity
formula on the Sentinel-2A two-line element set.  The `TLE` class itself is
not part of the visible source, so the parser and the calculator are
modelled from the specification; the frozen-orbit formula and its physical
constants (J2, J3, R_E) are taken from the notebook cell that computes it,
and the gravitational parameter is the WGS-72 value 398600.8 km^3/s^2,
the unique standard value reproducing the notebook's printed semi-major
axis 7167.136364515168 km.
-/

deriving instance DecidableEq for Except

namespace Satmad

/-- Error taxonomy of the parser and calculator (spec section 7). -/
inductive TLEError where
  | formatError
  | checksumError
  | consistencyError
  | domainError
deriving DecidableEq

/-- Modelled from the spec: the TLE Record data model (spec section 3) of the
missing `satmad.propagation.tle.TLE` class.  Angles are stored in degrees,
`mean_motion` in revolutions per day; the epoch is kept as the century-pivoted
year together with the fractional day of year.  All numeric fields are exact
rationals, embedding the decimal text fields of the format. -/
structure TLE where
  name : Option String
  catalog_number : Nat
  classification : Char
  epoch_year : Nat
  epoch_day : ℚ
  mean_motion_derivative_1 : ℚ
  mean_motion_derivative_2 : ℚ
  bstar : ℚ
  inclination : ℚ
  raan : ℚ
  eccentricity : ℚ
  arg_perigee : ℚ
  mean_anomaly : ℚ
  mean_motion : ℚ
  rev_number : Nat
deriving DecidableEq

/-- Decimal-digit test on characters (ASCII `'0'`..`'9'`). -/
def isDig (c : Char) : Bool := 47 < c.toNat && c.toNat < 58

/-- Numeric value of a decimal digit character. -/
def digitVal (c : Char) : Nat := c.toNat - 48

/-- Checksum contribution of one character: digits count their value,
a minus sign counts 1, everything else counts 0 (spec section 4.1, step 2). -/
def checksumVal (c : Char) : Nat :=
  if isDig c then digitVal c else if c = '-' then 1 else 0

/-- Character of a line at a given index, blank when out of range. -/
def charAt (l : List Char) (n : Nat) : Char := l.getD n ' '

/-- Modulo-10 digit-sum over the first 68 characters of a line. -/
def lineChecksum (l : List Char) : Nat :=
  ((l.take 68).map checksumVal).sum % 10

/-- Checksum validity of a 69-character line: the last character is a digit
equal to the modulo-10 digit-sum of the first 68 characters. -/
def checksum_ok (l : List Char) : Bool :=
  isDig (charAt l 68) && (digitVal (charAt l 68) == lineChecksum l)

/-- All characters of the list are decimal digits. -/
def allDigits (l : List Char) : Bool := l.all isDig

/-- Value of a string of decimal digits, most significant first. -/
def digitsToNat (l : List Char) : Nat :=
  l.foldl (fun n c => 10 * n + digitVal c) 0

/-- Strip leading and trailing blanks from a field. -/
def trim (l : List Char) : List Char :=
  ((l.dropWhile (· = ' ')).reverse.dropWhile (· = ' ')).reverse

/-- Parse a non-empty all-digit field as a natural number. -/
def parseNatDigits (l : List Char) : Option Nat :=
  if l ≠ [] ∧ allDigits l = true then some (digitsToNat l) else none

/-- Parse an unsigned fixed-point decimal field (optional single decimal
point, at least one digit overall). -/
def parseUnsignedDecimal (l : List Char) : Option ℚ :=
  let ip := l.takeWhile (· ≠ '.')
  match l.dropWhile (· ≠ '.') with
  | [] => if ip ≠ [] ∧ allDigits ip = true then some ((digitsToNat ip : ℚ)) else none
  | _ :: fp =>
      if (ip ≠ [] ∨ fp ≠ []) ∧ allDigits ip = true ∧ allDigits fp = true then
        some ((digitsToNat ip : ℚ) + (digitsToNat fp : ℚ) / (10 : ℚ) ^ fp.length)
      else none

/-- Parse a signed fixed-point decimal field after trimming blanks. -/
def parseSignedDecimal (l0 : List Char) : Option ℚ :=
  match trim l0 with
  | '-' :: rest => (parseUnsignedDecimal rest).map (fun q => -q)
  | '+' :: rest => parseUnsignedDecimal rest
  | l => parseUnsignedDecimal l

/-- Parse a decimal-point-implied exponential field (spec section 4.1, step 3):
an optional sign, a digit mantissa m read as 0.m, and a trailing signed
one-digit base-10 exponent. -/
def parseImpliedExp (l0 : List Char) : Option ℚ :=
  let su : ℚ × List Char :=
    match trim l0 with
    | '-' :: rest => (-1, rest)
    | '+' :: rest => (1, rest)
    | l => (1, l)
  match su.2.reverse with
  | ed :: es :: mrev =>
      if isDig ed = true ∧ (es = '-' ∨ es = '+') ∧ mrev ≠ [] ∧ allDigits mrev = true then
        let mant : ℚ := (digitsToNat mrev.reverse : ℚ) / (10 : ℚ) ^ mrev.length
        let ex : ℤ := if es = '-' then -(digitVal ed : ℤ) else (digitVal ed : ℤ)
        some (su.1 * mant * (10 : ℚ) ^ ex)
      else none
  | _ => none

/-- Fixed-column field of a line: characters from index `a` (inclusive)
to index `b` (exclusive). -/
def field (l : List Char) (a b : Nat) : List Char := (l.drop a).take (b - a)

/-- Modelled from the spec: the raw numeric fields extracted from the two
lines of the missing parser, before the cross-line consistency check. -/
structure RawFields where
  cat1 : Nat
  cls : Char
  epoch_yy : Nat
  epoch_day : ℚ
  mmdot : ℚ
  mmddot : ℚ
  bstar : ℚ
  cat2 : Nat
  incl : ℚ
  raan : ℚ
  ecc : ℚ
  argp : ℚ
  ma : ℚ
  mm : ℚ
  rev : Nat
deriving DecidableEq

/-- Modelled from the spec: fixed-column field extraction of the missing
parser (spec section 4.1, step 3; NORAD TLE column layout).  The eccentricity
field is the raw 7-digit string with an implied leading "0.". -/
def extractFields (l1 l2 : List Char) : Option RawFields := do
  let cat1 ← parseNatDigits (trim (field l1 2 7))
  let cls := charAt l1 7
  let yy ← parseNatDigits (trim (field l1 18 20))
  let eday ← parseUnsignedDecimal (trim (field l1 20 32))
  let mmdot ← parseSignedDecimal (field l1 33 43)
  let mmddot ← parseImpliedExp (field l1 44 52)
  let bst ← parseImpliedExp (field l1 53 61)
  let cat2 ← parseNatDigits (trim (field l2 2 7))
  let incl ← parseUnsignedDecimal (trim (field l2 8 16))
  let raan ← parseUnsignedDecimal (trim (field l2 17 25))
  let eccDigits := field l2 26 33
  let ecc ← if eccDigits.length = 7 ∧ allDigits eccDigits = true then
      some ((digitsToNat eccDigits : ℚ) / (10 : ℚ) ^ 7) else none
  let argp ← parseUnsignedDecimal (trim (field l2 34 42))
  let ma ← parseUnsignedDecimal (trim (field l2 43 51))
  let mm ← parseUnsignedDecimal (trim (field l2 52 63))
  let rev ← parseNatDigits (trim (field l2 63 68))
  pure { cat1 := cat1, cls := cls, epoch_yy := yy, epoch_day := eday,
         mmdot := mmdot, mmddot := mmddot, bstar := bst, cat2 := cat2,
         incl := incl, raan := raan, ecc := ecc, argp := argp, ma := ma,
         mm := mm, rev := rev }

/-- Declared valid ranges of the extracted fields (spec sections 3 and 8). -/
def rangesOK (f : RawFields) : Prop :=
  (0 ≤ f.ecc ∧ f.ecc < 1) ∧ (0 ≤ f.incl ∧ f.incl ≤ 180) ∧
  (0 ≤ f.raan ∧ f.raan < 360) ∧ (0 ≤ f.argp ∧ f.argp < 360) ∧
  (0 ≤ f.ma ∧ f.ma < 360) ∧ 0 < f.mm

instance : DecidablePred rangesOK := fun f => by
  unfold rangesOK; infer_instance

/-- Lengths-and-markers precondition of the two lines (spec section 4.1,
step 1): each line has exactly 69 characters, line 1 starts with the
character `'1'` and line 2 with `'2'`. -/
def formatOK (l1 l2 : List Char) : Prop :=
  l1.length = 69 ∧ l2.length = 69 ∧ charAt l1 0 = '1' ∧ charAt l2 0 = '2'

instance : ∀ l1 l2, Decidable (formatOK l1 l2) := fun l1 l2 => by
  unfold formatOK; infer_instance

/-- Last stage of the parsing pipeline: fail with FormatError when a field
did not decode, with ConsistencyError when the catalog numbers of the two
lines differ, with FormatError when a decoded field is out of range. -/
def consistencyStage : Option RawFields → Except TLEError RawFields
  | none => .error .formatError
  | some f =>
      if f.cat1 = f.cat2 then
        if rangesOK f then .ok f else .error .formatError
      else .error .consistencyError

/-- Modelled from the spec: the validation-and-extraction pipeline of the
missing `TLE.from_tle` parser (spec section 4.1): format checks, per-line
checksums, field extraction, catalog-number consistency, range validation. -/
def parseCore (l1 l2 : List Char) : Except TLEError RawFields :=
  if formatOK l1 l2 then
    if checksum_ok l1 = true ∧ checksum_ok l2 = true then
      consistencyStage (extractFields l1 l2)
    else .error .checksumError
  else .error .formatError

/-- Assemble the immutable record from the extracted fields and the optional
caller-supplied name, applying the century pivot to the 2-digit epoch year
(57-99 means 1957-1999, 00-56 means 2000-2056). -/
def buildRecord (nm : Option String) (f : RawFields) : TLE :=
  { name := nm
    catalog_number := f.cat1
    classification := f.cls
    epoch_year := if 57 ≤ f.epoch_yy then 1900 + f.epoch_yy else 2000 + f.epoch_yy
    epoch_day := f.epoch_day
    mean_motion_derivative_1 := f.mmdot
    mean_motion_derivative_2 := f.mmddot
    bstar := f.bstar
    inclination := f.incl
    raan := f.raan
    eccentricity := f.ecc
    arg_perigee := f.argp
    mean_anomaly := f.ma
    mean_motion := f.mm
    rev_number := f.rev }

/-- Modelled from the spec: the factory `TLE.from_tle(line1, line2, name)` of
the missing TLE class.  Parsing either fully succeeds with a validated record
or fails with a specific error kind; the record is never partially populated. -/
def from_tle (line1 line2 : String) (nm : Option String) : Except TLEError TLE :=
  (parseCore line1.data line2.data).map (buildRecord nm)

/-- First line of the Sentinel-2A TLE used in the notebook. -/
def line1Str : String :=
  "1 40697U 15028A   20164.50828565  .00000010  00000-0  20594-4 0  9999"

/-- Second line of the Sentinel-2A TLE used in the notebook. -/
def line2Str : String :=
  "2 40697  98.5692 238.8182 0001206  86.9662 273.1664 14.30818200259759"

/-- The record produced by parsing the Sentinel-2A lines. -/
def sentinel : TLE :=
  { name := some "Sentinel 2A"
    catalog_number := 40697
    classification := 'U'
    epoch_year := 2020
    epoch_day := 164.50828565
    mean_motion_derivative_1 := 0.0000001
    mean_motion_derivative_2 := 0
    bstar := 0.000020594
    inclination := 98.5692
    raan := 238.8182
    eccentricity := 0.0001206
    arg_perigee := 86.9662
    mean_anomaly := 273.1664
    mean_motion := 14.308182
    rev_number := 25975 }

/-- The raw fields extracted from the Sentinel-2A lines. -/
def sentinelRaw : RawFields :=
  { cat1 := 40697, cls := 'U', epoch_yy := 20, epoch_day := 164.50828565,
    mmdot := 0.0000001, mmddot := 0, bstar := 0.000020594, cat2 := 40697,
    incl := 98.5692, raan := 238.8182, ecc := 0.0001206, argp := 86.9662,
    ma := 273.1664, mm := 14.308182, rev := 25975 }

/-- String with the character at one position replaced. -/
def setChar (s : String) (p : Nat) (c : Char) : String := String.mk (s.data.set p c)

/-- The Sentinel-2A record parsed without a caller-supplied name. -/
def sentinelN : TLE := { sentinel with name := none }

/-- Second line of the Sentinel-2A TLE with the catalog number changed to
40698 and the checksum digit recomputed accordingly. -/
def line2CatStr : String :=
  "2 40698  98.5692 238.8182 0001206  86.9662 273.1664 14.30818200259750"

/-- The raw fields extracted from the Sentinel-2A line 1 paired with the
altered second line. -/
def sentinelRawCat : RawFields := { sentinelRaw with cat2 := 40698 }



/-- Modelled from the spec: Earth gravitational parameter mu in km^3/s^2 of
the Physical Constants Table of the missing TLE class; the WGS-72 value,
the unique standard value reproducing the notebook's printed semi-major axis. -/
def mu : ℚ := 398600.8

/-- Earth equatorial radius in km, as assigned in the notebook cell
(`r_e = 6378.135 * u.km`). -/
def r_earth : ℚ := 6378.135

/-- Second zonal harmonic coefficient, as assigned in the notebook cell
(`j2 = 0.001082616`). -/
def j2 : ℚ := 0.001082616

/-- Third zonal harmonic coefficient, as assigned in the notebook cell
(`j3 = -0.00000253881`). -/
def j3 : ℚ := -0.00000253881

/-- Angular mean motion n in rad/s, converted from `mean_motion` in rev/day
via n = mean_motion * 2 * pi / 86400 (spec section 4.2). -/
noncomputable def nAngular (t : TLE) : ℝ :=
  (t.mean_motion : ℝ) * (2 * Real.pi) / 86400

/-- Modelled from the spec: `sm_axis()` of the missing TLE class, the
semi-major axis a = (mu / n^2)^(1/3) in km obtained by inverting Kepler's
third law (spec section 4.2). -/
noncomputable def sm_axis (t : TLE) : ℝ :=
  ((mu : ℝ) / nAngular t ^ 2) ^ ((1 : ℝ) / 3)

/-- Modelled from the spec: the semi-major axis query with its DomainError
precondition check, failing when `mean_motion` is not positive rather than
producing a non-physical output (spec sections 4.2 and 7). -/
noncomputable def sm_axis_checked (t : TLE) : Except TLEError ℝ :=
  if 0 < t.mean_motion then .ok (sm_axis t) else .error .domainError

/-- Modelled from the spec: `node_rotation_rate()` of the missing TLE class,
the J2 secular nodal regression rate
rate = -3/2 * n * J2 * (R_E / p)^2 * cos(inclination), with p = a(1 - e^2),
converted from rad/s to degrees/day for reporting (spec section 4.2). -/
noncomputable def node_rotation_rate (t : TLE) : ℝ :=
  (-(3 / 2) * nAngular t * (j2 : ℝ) *
      ((r_earth : ℝ) / (sm_axis t * (1 - (t.eccentricity : ℝ) ^ 2))) ^ 2 *
      Real.cos ((t.inclination : ℝ) * Real.pi / 180)) * (180 / Real.pi) * 86400

/-- Ideal frozen-orbit eccentricity
e_ideal = -(J3 * R_E * sin(inclination)) / (2 * J2 * a), as computed in the
notebook cell from the record's inclination and semi-major axis. -/
noncomputable def ideal_frozen_eccentricity (t : TLE) : ℝ :=
  -((j3 : ℝ) * (r_earth : ℝ) * Real.sin ((t.inclination : ℝ) * Real.pi / 180)) /
    (2 * (j2 : ℝ) * sm_axis t)

/-- Declared valid ranges of the fields of a parsed record (spec sections 3
and 8): eccentricity in [0,1), inclination in [0,180], raan, arg_perigee and
mean_anomaly in [0,360), mean_motion positive. -/
def InRange (r : TLE) : Prop :=
  (0 ≤ r.eccentricity ∧ r.eccentricity < 1) ∧
  (0 ≤ r.inclination ∧ r.inclination ≤ 180) ∧
  (0 ≤ r.raan ∧ r.raan < 360) ∧ (0 ≤ r.arg_perigee ∧ r.arg_perigee < 360) ∧
  (0 ≤ r.mean_anomaly ∧ r.mean_anomaly < 360) ∧ 0 < r.mean_motion

/-- Syntactic well-formedness of a two-line element set (spec sections 4.1
and 8): correct lengths and line markers, both checksums valid, all
fixed-column fields numerically decodable, matching catalog numbers, and
field values inside their declared ranges. -/
def WellFormed (l1 l2 : List Char) : Prop :=
  formatOK l1 l2 ∧ checksum_ok l1 = true ∧ checksum_ok l2 = true ∧
  ∃ f, extractFields l1 l2 = some f ∧ f.cat1 = f.cat2 ∧ rangesOK f

/-- Offset of the Sentinel inclination above 90 degrees, in radians. -/
noncomputable def phiS : ℝ := Real.pi * (8.5692 / 180)

section ConcreteEvaluation

attribute [local semireducible] Rat.add Rat.mul Rat.inv Rat.sub Rat.ofScientific

/-- Field extraction on the Sentinel-2A lines yields the expected raw fields. -/
theorem sentinel_extract : extractFields line1Str.data line2Str.data = some sentinelRaw := by
  decide

/-- Parsing the Sentinel-2A lines yields the expected record. -/
theorem sentinel_parse : from_tle line1Str line2Str (some "Sentinel 2A") = .ok sentinel := by
  decide

/-- Parsing the Sentinel-2A lines without a name yields the same record
up to the stored label. -/
theorem sentinel_parse_noname : from_tle line1Str line2Str none = .ok sentinelN := by
  decide

end ConcreteEvaluation

/-- Inversion of `Except.map` at a success value. -/
theorem except_map_ok {ε α β : Type} (g : α → β) (e : Except ε α) (b : β)
    (h : Except.map g e = .ok b) : ∃ a, e = .ok a ∧ b = g a := by
  cases e with
  | error err => simp [Except.map] at h
  | ok a => exact ⟨a, rfl, by simpa [Except.map] using h.symm⟩

/-- Characterization of parser success in terms of the pipeline checks. -/
theorem parseCore_ok_iff (l1 l2 : List Char) (f : RawFields) :
    parseCore l1 l2 = .ok f ↔
      formatOK l1 l2 ∧ (checksum_ok l1 = true ∧ checksum_ok l2 = true) ∧
      extractFields l1 l2 = some f ∧ f.cat1 = f.cat2 ∧ rangesOK f := by
  constructor
  · intro h
    unfold parseCore at h
    by_cases h1 : formatOK l1 l2
    · rw [if_pos h1] at h
      by_cases h2 : checksum_ok l1 = true ∧ checksum_ok l2 = true
      · rw [if_pos h2] at h
        rcases hext : extractFields l1 l2 with _ | g <;> rw [hext] at h <;>
          simp only [consistencyStage] at h
        · exact absurd h (by simp)
        · by_cases h3 : g.cat1 = g.cat2
          · rw [if_pos h3] at h
            by_cases h4 : rangesOK g
            · rw [if_pos h4] at h
              obtain rfl : g = f := Except.ok.inj h
              exact ⟨h1, h2, rfl, h3, h4⟩
            · rw [if_neg h4] at h
              exact absurd h (by simp)
          · rw [if_neg h3] at h
            exact absurd h (by simp)
      · rw [if_neg h2] at h
        exact absurd h (by simp)
    · rw [if_neg h1] at h
      exact absurd h (by simp)
  · rintro ⟨h1, h2, hext, h3, h4⟩
    unfold parseCore
    rw [if_pos h1, if_pos h2, hext]
    simp only [consistencyStage]
    rw [if_pos h3, if_pos h4]

/-- The parser reports ChecksumError exactly when the format checks pass and
a checksum fails. -/
theorem parseCore_checksum_error (l1 l2 : List Char) (h1 : formatOK l1 l2)
    (h2 : ¬(checksum_ok l1 = true ∧ checksum_ok l2 = true)) :
    parseCore l1 l2 = .error .checksumError := by
  simp [parseCore, h1, h2]

/-- The parser reports ConsistencyError when all per-line checks pass but
the catalog numbers of the two lines differ. -/
theorem parseCore_consistency_error (l1 l2 : List Char) (f : RawFields)
    (h1 : formatOK l1 l2) (h2 : checksum_ok l1 = true) (h3 : checksum_ok l2 = true)
    (hext : extractFields l1 l2 = some f) (hne : f.cat1 ≠ f.cat2) :
    parseCore l1 l2 = .error .consistencyError := by
  simp [parseCore, consistencyStage, h1, h2, h3, hext, hne]

/-- The parser only ever fails with FormatError, ChecksumError or
ConsistencyError; DomainError is reserved to the calculator. -/
theorem parseCore_error_kinds (l1 l2 : List Char) (e : TLEError)
    (h : parseCore l1 l2 = .error e) :
    e = .formatError ∨ e = .checksumError ∨ e = .consistencyError := by
  unfold parseCore at h
  by_cases h1 : formatOK l1 l2
  · rw [if_pos h1] at h
    by_cases h2 : checksum_ok l1 = true ∧ checksum_ok l2 = true
    · rw [if_pos h2] at h
      rcases hext : extractFields l1 l2 with _ | g <;> rw [hext] at h <;>
        simp only [consistencyStage] at h
      · exact Or.inl (Except.error.inj h).symm
      · by_cases h3 : g.cat1 = g.cat2
        · rw [if_pos h3] at h
          by_cases h4 : rangesOK g
          · rw [if_pos h4] at h
            exact absurd h (by simp)
          · rw [if_neg h4] at h
            exact Or.inl (Except.error.inj h).symm
        · rw [if_neg h3] at h
          exact Or.inr (Or.inr (Except.error.inj h).symm)
    · rw [if_neg h2] at h
      exact Or.inr (Or.inl (Except.error.inj h).symm)
  · rw [if_neg h1] at h
    exact Or.inl (Except.error.inj h).symm

/-- Success of `from_tle` in terms of the pipeline checks. -/
theorem from_tle_ok_iff (line1 line2 : String) (nm : Option String) (r : TLE) :
    from_tle line1 line2 nm = .ok r ↔
      ∃ f, parseCore line1.data line2.data = .ok f ∧ r = buildRecord nm f := by
  constructor
  · intro h
    exact except_map_ok (buildRecord nm) _ r h
  · rintro ⟨f, hf, rfl⟩
    simp [from_tle, hf, Except.map]

/-- A successfully parsed record satisfies all declared range invariants. -/
theorem from_tle_ok_inRange (line1 line2 : String) (nm : Option String) (r : TLE)
    (h : from_tle line1 line2 nm = .ok r) : InRange r := by
  obtain ⟨f, hf, rfl⟩ := (from_tle_ok_iff line1 line2 nm r).mp h
  have hr := ((parseCore_ok_iff _ _ f).mp hf).2.2.2.2
  exact hr

/-- Characters with equal code points are equal. -/
theorem char_toNat_inj {a b : Char} (h : a.toNat = b.toNat) : a = b := by
  have ha := Char.ofNat_toNat a
  rw [h, Char.ofNat_toNat] at ha
  exact ha.symm

/-- Setting an index different from the queried one leaves the character
unchanged. -/
theorem charAt_set_ne (c : Char) :
    ∀ (l : List Char) (p q : Nat), p ≠ q → charAt (l.set p c) q = charAt l q := by
  intro l
  induction l with
  | nil =>
    intro p q _
    simp [List.set]
  | cons a t ih =>
    intro p q h
    cases p with
    | zero =>
      cases q with
      | zero => exact absurd rfl h
      | succ q => simp [charAt]
    | succ p =>
      cases q with
      | zero => simp [charAt]
      | succ q =>
        have hne : p ≠ q := fun hh => h (by rw [hh])
        simpa [charAt] using ih p q hne

/-- Setting an index inside the list puts the new character there. -/
theorem charAt_set_self (c : Char) :
    ∀ (l : List Char) (p : Nat), p < l.length → charAt (l.set p c) p = c := by
  intro l
  induction l with
  | nil =>
    intro p h
    simp at h
  | cons a t ih =>
    intro p h
    cases p with
    | zero => simp [charAt]
    | succ p =>
      have hp : p < t.length := by simpa using h
      simpa [charAt] using ih p hp

/-- Taking a prefix shorter than the set position ignores the set. -/
theorem take_set_of_le (c : Char) :
    ∀ (l : List Char) (p m : Nat), m ≤ p → (l.set p c).take m = l.take m := by
  intro l
  induction l with
  | nil =>
    intro p m _
    simp [List.set]
  | cons a t ih =>
    intro p m h
    cases p with
    | zero =>
      have hm : m = 0 := Nat.le_zero.mp h
      subst hm
      simp
    | succ p =>
      cases m with
      | zero => simp
      | succ m =>
        have := ih p m (Nat.le_of_succ_le_succ h)
        simp [this]

/-- Setting a position inside a taken prefix commutes with taking it. -/
theorem take_set_of_lt (c : Char) :
    ∀ (l : List Char) (p m : Nat), p < m → (l.set p c).take m = (l.take m).set p c := by
  intro l
  induction l with
  | nil =>
    intro p m _
    simp [List.set]
  | cons a t ih =>
    intro p m h
    cases m with
    | zero => simp at h
    | succ m =>
      cases p with
      | zero => simp
      | succ p =>
        have := ih p m (Nat.lt_of_succ_lt_succ h)
        simp [this]

/-- Characters of a prefix agree with those of the full line. -/
theorem charAt_take :
    ∀ (l : List Char) (p m : Nat), p < m → charAt (l.take m) p = charAt l p := by
  intro l
  induction l with
  | nil =>
    intro p m _
    simp
  | cons a t ih =>
    intro p m h
    cases m with
    | zero => simp at h
    | succ m =>
      cases p with
      | zero => simp [charAt]
      | succ p =>
        have := ih p m (Nat.lt_of_succ_lt_succ h)
        simpa [charAt] using this

/-- Replacing one character shifts the mapped sum by the difference of the
images of the old and the new character. -/
theorem sum_map_set (f : Char → Nat) (c : Char) :
    ∀ (l : List Char) (p : Nat), p < l.length →
      ((l.set p c).map f).sum + f (charAt l p) = (l.map f).sum + f c := by
  intro l
  induction l with
  | nil =>
    intro p h
    simp at h
  | cons a t ih =>
    intro p h
    cases p with
    | zero =>
      simp [charAt]
      omega
    | succ p =>
      have hp : p < t.length := by simpa using h
      have := ih p hp
      simp [charAt] at this ⊢
      omega

/-- Replacing a digit of a checksum-valid line at any position from 1 to 68
by a different digit invalidates the checksum. -/
theorem checksum_ok_set_false (l : List Char) (p : Nat) (c : Char)
    (hlen : l.length = 69) (hp68 : p ≤ 68)
    (hold : isDig (charAt l p) = true) (hc : isDig c = true)
    (hne : c ≠ charAt l p) (hok : checksum_ok l = true) :
    checksum_ok (l.set p c) = false := by
  have hok' : isDig (charAt l 68) = true ∧ digitVal (charAt l 68) = lineChecksum l := by
    simpa [checksum_ok, Bool.and_eq_true] using hok
  have hcn : 47 < c.toNat ∧ c.toNat < 58 := by
    simpa [isDig, Bool.and_eq_true, decide_eq_true_eq] using hc
  have holdn : 47 < (charAt l p).toNat ∧ (charAt l p).toNat < 58 := by
    simpa [isDig, Bool.and_eq_true, decide_eq_true_eq] using hold
  have htn : c.toNat ≠ (charAt l p).toNat := fun hEq => hne (char_toNat_inj hEq)
  rcases Nat.lt_or_ge p 68 with hp | hp
  · have h68 : charAt (l.set p c) 68 = charAt l 68 := charAt_set_ne c l p 68 (by omega)
    have htake : (l.set p c).take 68 = (l.take 68).set p c := take_set_of_lt c l p 68 hp
    have hplen : p < (l.take 68).length := by
      rw [List.length_take]
      omega
    have hsum := sum_map_set checksumVal c (l.take 68) p hplen
    rw [charAt_take l p 68 hp] at hsum
    have hvold : checksumVal (charAt l p) = (charAt l p).toNat - 48 := by
      simp [checksumVal, hold, digitVal]
    have hvc : checksumVal c = c.toNat - 48 := by
      simp [checksumVal, hc, digitVal]
    rw [hvold, hvc] at hsum
    simp only [checksum_ok, h68, hok'.1, Bool.true_and, lineChecksum, htake]
    rw [Bool.eq_false_iff]
    intro hbeq
    have hbeq' : digitVal (charAt l 68) =
        (((l.take 68).set p c).map checksumVal).sum % 10 := by
      simpa using hbeq
    have hLC : digitVal (charAt l 68) = ((l.take 68).map checksumVal).sum % 10 := by
      simpa [lineChecksum] using hok'.2
    omega
  · have hp' : p = 68 := by omega
    subst hp'
    have h68 : charAt (l.set 68 c) 68 = c := charAt_set_self c l 68 (by omega)
    have htake : (l.set 68 c).take 68 = l.take 68 := take_set_of_le c l 68 68 le_rfl
    simp only [checksum_ok, h68, hc, Bool.true_and, lineChecksum, htake]
    rw [Bool.eq_false_iff]
    intro hbeq
    have hbeq' : digitVal c = ((l.take 68).map checksumVal).sum % 10 := by
      simpa using hbeq
    have hLC : digitVal (charAt l 68) = ((l.take 68).map checksumVal).sum % 10 := by
      simpa [lineChecksum] using hok'.2
    simp only [digitVal] at hbeq' hLC
    omega

/-- A successful parse certifies the format and checksum checks of both
lines. -/
theorem from_tle_ok_facts (line1 line2 : String) (nm : Option String) (r : TLE)
    (h : from_tle line1 line2 nm = .ok r) :
    formatOK line1.data line2.data ∧
      checksum_ok line1.data = true ∧ checksum_ok line2.data = true := by
  obtain ⟨f, hf, rfl⟩ := (from_tle_ok_iff _ _ _ _).mp h
  have hx := (parseCore_ok_iff _ _ f).mp hf
  exact ⟨hx.1, hx.2.1.1, hx.2.1.2⟩

/-- Rational lower bound for a real cube root: if lo^3 < A then lo < A^(1/3). -/
theorem rpow_third_gt {A lo : ℝ} (hlo : 0 ≤ lo) (h : lo ^ (3 : ℕ) < A) :
    lo < A ^ ((1 : ℝ) / 3) := by
  have h1 : ((lo ^ (3 : ℕ) : ℝ)) ^ ((1 : ℝ) / 3) < A ^ ((1 : ℝ) / 3) :=
    Real.rpow_lt_rpow (by positivity) h (by norm_num)
  have h2 : ((lo ^ (3 : ℕ) : ℝ)) ^ ((1 : ℝ) / 3) = lo := by
    rw [← Real.rpow_natCast lo 3, ← Real.rpow_mul hlo]
    norm_num
  calc lo = ((lo ^ (3 : ℕ) : ℝ)) ^ ((1 : ℝ) / 3) := h2.symm
    _ < A ^ ((1 : ℝ) / 3) := h1

/-- Rational upper bound for a real cube root: if A < hi^3 then A^(1/3) < hi. -/
theorem rpow_third_lt {A hi : ℝ} (hA : 0 ≤ A) (hhi : 0 ≤ hi) (h : A < hi ^ (3 : ℕ)) :
    A ^ ((1 : ℝ) / 3) < hi := by
  have h1 : A ^ ((1 : ℝ) / 3) < ((hi ^ (3 : ℕ) : ℝ)) ^ ((1 : ℝ) / 3) :=
    Real.rpow_lt_rpow hA h (by norm_num)
  have h2 : ((hi ^ (3 : ℕ) : ℝ)) ^ ((1 : ℝ) / 3) = hi := by
    rw [← Real.rpow_natCast hi 3, ← Real.rpow_mul hhi]
    norm_num
  linarith

/-- Closed form of the Kepler-inversion argument mu / n^2 for the Sentinel
record, as an explicit rational multiple of 1 / pi^2. -/
theorem sm_axis_sentinel_arg :
    (mu : ℝ) / nAngular sentinel ^ 2 =
      2295940608000000000000000 / (631864420201 * Real.pi ^ 2) := by
  have hmm : sentinel.mean_motion = (14.308182 : ℚ) := rfl
  unfold nAngular mu
  rw [hmm]
  have hc : ((14.308182 : ℚ) : ℝ) = 14.308182 := by norm_num
  have hcmu : ((398600.8 : ℚ) : ℝ) = 398600.8 := by norm_num
  rw [hc, hcmu]
  have hpi := Real.pi_ne_zero
  field_simp
  ring

/-- The semi-major axis of the Sentinel record exceeds 7167.134 km. -/
theorem sm_axis_sentinel_lb : (7167.134 : ℝ) < sm_axis sentinel := by
  unfold sm_axis
  rw [sm_axis_sentinel_arg]
  apply rpow_third_gt (by norm_num)
  have h1 : Real.pi ^ 2 < 3.141593 ^ 2 :=
    pow_lt_pow_left₀ Real.pi_lt_d6 (le_of_lt Real.pi_pos) (by norm_num)
  rw [lt_div_iff₀ (by positivity)]
  nlinarith [h1]

/-- The semi-major axis of the Sentinel record is below 7167.139 km. -/
theorem sm_axis_sentinel_ub : sm_axis sentinel < 7167.139 := by
  unfold sm_axis
  rw [sm_axis_sentinel_arg]
  apply rpow_third_lt (by positivity) (by norm_num)
  have h1 : (3.141592 : ℝ) ^ 2 < Real.pi ^ 2 :=
    pow_lt_pow_left₀ Real.pi_gt_d6 (by norm_num) (by norm_num)
  rw [div_lt_iff₀ (by positivity)]
  nlinarith [h1]



/-- Numeric enclosure of the inclination offset angle. -/
theorem phiS_bounds : (0.1495607 : ℝ) < phiS ∧ phiS < 0.1495608 := by
  unfold phiS
  constructor <;> nlinarith [Real.pi_gt_d6, Real.pi_lt_d6]

/-- Numeric enclosure of the sine of the inclination offset angle. -/
theorem sin_phiS_bounds : (0.148976 : ℝ) < Real.sin phiS ∧ Real.sin phiS < 0.14903 := by
  obtain ⟨h1, h2⟩ := phiS_bounds
  have hpos : (0 : ℝ) < phiS := by linarith
  have habs : |phiS| ≤ 1 := by
    rw [abs_of_pos hpos]
    linarith
  have hb := Real.sin_bound habs
  rw [abs_of_pos hpos] at hb
  have hb' := abs_le.mp hb
  have h3 : phiS ^ 3 < 0.1495608 ^ 3 := pow_lt_pow_left₀ h2 (le_of_lt hpos) (by norm_num)
  have h4 : phiS ^ 4 < 0.1495608 ^ 4 := pow_lt_pow_left₀ h2 (le_of_lt hpos) (by norm_num)
  have h5 : (0.1495607 : ℝ) ^ 3 < phiS ^ 3 := pow_lt_pow_left₀ h1 (by norm_num) (by norm_num)
  constructor <;> nlinarith [hb'.1, hb'.2]

/-- Numeric enclosure of the cosine of the inclination offset angle. -/
theorem cos_phiS_bounds : (0.988789 : ℝ) < Real.cos phiS ∧ Real.cos phiS < 0.988843 := by
  obtain ⟨h1, h2⟩ := phiS_bounds
  have hpos : (0 : ℝ) < phiS := by linarith
  have habs : |phiS| ≤ 1 := by
    rw [abs_of_pos hpos]
    linarith
  have hb := Real.cos_bound habs
  rw [abs_of_pos hpos] at hb
  have hb' := abs_le.mp hb
  have h3 : phiS ^ 2 < 0.1495608 ^ 2 := pow_lt_pow_left₀ h2 (le_of_lt hpos) (by norm_num)
  have h4 : phiS ^ 4 < 0.1495608 ^ 4 := pow_lt_pow_left₀ h2 (le_of_lt hpos) (by norm_num)
  have h5 : (0.1495607 : ℝ) ^ 2 < phiS ^ 2 := pow_lt_pow_left₀ h1 (by norm_num) (by norm_num)
  constructor <;> nlinarith [hb'.1, hb'.2]

/-- The Sentinel inclination in radians is the offset angle plus pi/2. -/
theorem sentinel_incl_rad :
    ((sentinel.inclination : ℚ) : ℝ) * Real.pi / 180 = phiS + Real.pi / 2 := by
  have h : sentinel.inclination = (98.5692 : ℚ) := rfl
  rw [h]
  have hc : ((98.5692 : ℚ) : ℝ) = 98.5692 := by norm_num
  rw [hc]
  unfold phiS
  ring

/-- Closed form of the node rotation rate of the Sentinel record: the factors
of pi of the angular conversion cancel against the mean-motion conversion. -/
theorem node_rate_sentinel_eq :
    node_rotation_rate sentinel =
      (3 / 2 : ℝ) * (360 * 14.308182) * 0.001082616 * 6378.135 ^ 2 * Real.sin phiS /
        (sm_axis sentinel * (1 - (0.0001206 : ℝ) ^ 2)) ^ 2 := by
  have he : sentinel.eccentricity = (0.0001206 : ℚ) := rfl
  have hmm : sentinel.mean_motion = (14.308182 : ℚ) := rfl
  unfold node_rotation_rate nAngular j2 r_earth
  rw [sentinel_incl_rad, Real.cos_add_pi_div_two, he, hmm]
  have hc1 : ((0.0001206 : ℚ) : ℝ) = 0.0001206 := by norm_num
  have hc2 : ((14.308182 : ℚ) : ℝ) = 14.308182 := by norm_num
  have hc3 : ((0.001082616 : ℚ) : ℝ) = 0.001082616 := by norm_num
  have hc4 : ((6378.135 : ℚ) : ℝ) = 6378.135 := by norm_num
  rw [hc1, hc2, hc3, hc4]
  have hapos : (0 : ℝ) < sm_axis sentinel := lt_trans (by norm_num) sm_axis_sentinel_lb
  have hcpos : (0 : ℝ) < 1 - (0.0001206 : ℝ) ^ 2 := by norm_num
  have hp : sm_axis sentinel * (1 - (0.0001206 : ℝ) ^ 2) ≠ 0 :=
    ne_of_gt (mul_pos hapos hcpos)
  have hpi := Real.pi_ne_zero
  field_simp
  ring

/-- Numeric enclosure of the node rotation rate of the Sentinel record,
inside the 0.98707 plus-minus 0.0005 degrees-per-day band. -/
theorem node_rate_sentinel_bounds :
    (0.98657 : ℝ) < node_rotation_rate sentinel ∧ node_rotation_rate sentinel < 0.98757 := by
  rw [node_rate_sentinel_eq]
  obtain ⟨hs1, hs2⟩ := sin_phiS_bounds
  have ha1 := sm_axis_sentinel_lb
  have ha2 := sm_axis_sentinel_ub
  have hapos : (0 : ℝ) < sm_axis sentinel := by linarith
  have hcpos : (0 : ℝ) < 1 - (0.0001206 : ℝ) ^ 2 := by norm_num
  have hppos : (0 : ℝ) < sm_axis sentinel * (1 - (0.0001206 : ℝ) ^ 2) := mul_pos hapos hcpos
  have hp2pos : (0 : ℝ) < (sm_axis sentinel * (1 - (0.0001206 : ℝ) ^ 2)) ^ 2 := by positivity
  have hpU : sm_axis sentinel * (1 - (0.0001206 : ℝ) ^ 2) <
      7167.139 * (1 - (0.0001206 : ℝ) ^ 2) := mul_lt_mul_of_pos_right ha2 hcpos
  have hpL : (7167.134 : ℝ) * (1 - (0.0001206 : ℝ) ^ 2) <
      sm_axis sentinel * (1 - (0.0001206 : ℝ) ^ 2) := mul_lt_mul_of_pos_right ha1 hcpos
  have hp2U : (sm_axis sentinel * (1 - (0.0001206 : ℝ) ^ 2)) ^ 2 <
      ((7167.139 : ℝ) * (1 - (0.0001206 : ℝ) ^ 2)) ^ 2 :=
    pow_lt_pow_left₀ hpU (le_of_lt hppos) (by norm_num)
  have hp2L : ((7167.134 : ℝ) * (1 - (0.0001206 : ℝ) ^ 2)) ^ 2 <
      (sm_axis sentinel * (1 - (0.0001206 : ℝ) ^ 2)) ^ 2 :=
    pow_lt_pow_left₀ hpL (by positivity) (by norm_num)
  constructor
  · rw [lt_div_iff₀ hp2pos]
    nlinarith [hs1, hp2U]
  · rw [div_lt_iff₀ hp2pos]
    nlinarith [hs2, hp2L]

/-- Closed form of the ideal frozen-orbit eccentricity of the Sentinel
record, with the sine of the inclination expressed through the offset angle. -/
theorem ideal_sentinel_eq :
    ideal_frozen_eccentricity sentinel =
      0.00000253881 * 6378.135 * Real.cos phiS / (2 * 0.001082616 * sm_axis sentinel) := by
  unfold ideal_frozen_eccentricity j3 j2 r_earth
  rw [sentinel_incl_rad, Real.sin_add_pi_div_two]
  have hc1 : ((-0.00000253881 : ℚ) : ℝ) = -0.00000253881 := by norm_num
  have hc3 : ((0.001082616 : ℚ) : ℝ) = 0.001082616 := by norm_num
  have hc4 : ((6378.135 : ℚ) : ℝ) = 6378.135 := by norm_num
  rw [hc1, hc3, hc4]
  ring

/-- Numeric enclosure of the ideal frozen-orbit eccentricity of the Sentinel
record, matching the notebook's printed value 0.0010318067048681323. -/
theorem ideal_sentinel_bounds :
    (0.001031 : ℝ) < ideal_frozen_eccentricity sentinel ∧
      ideal_frozen_eccentricity sentinel < 0.001032 := by
  rw [ideal_sentinel_eq]
  obtain ⟨hc1, hc2⟩ := cos_phiS_bounds
  have ha1 := sm_axis_sentinel_lb
  have ha2 := sm_axis_sentinel_ub
  have hapos : (0 : ℝ) < sm_axis sentinel := by linarith
  have hdpos : (0 : ℝ) < 2 * (0.001082616 : ℝ) * sm_axis sentinel := by positivity
  constructor
  · rw [lt_div_iff₀ hdpos]
    nlinarith [hc1, ha2]
  · rw [div_lt_iff₀ hdpos]
    nlinarith [hc2, ha1]

section ClaimTheorems

attribute [local semireducible] Rat.add Rat.mul Rat.inv Rat.sub Rat.ofScientific

/-- C1: Known-value scenario for the Sentinel-2A TLE: parsing the two given
lines succeeds, with eccentricity 0.0001206, inclination 98.5692 degrees and
argument of perigee 86.9662 degrees; the semi-major axis is within 0.01 km of
7167.14 km and the node rotation rate within 0.0005 degrees/day of 0.98707
degrees/day. -/
theorem C1_known_value_scenario :
    from_tle line1Str line2Str (some "Sentinel 2A") = .ok sentinel ∧
    sentinel.eccentricity = 0.0001206 ∧
    sentinel.inclination = 98.5692 ∧
    sentinel.arg_perigee = 86.9662 ∧
    |sm_axis sentinel - 7167.14| < 0.01 ∧
    |node_rotation_rate sentinel - 0.98707| < 0.0005 := by
  refine ⟨sentinel_parse, rfl, rfl, rfl, ?_, ?_⟩
  · have h1 := sm_axis_sentinel_lb
    have h2 := sm_axis_sentinel_ub
    rw [abs_lt]
    constructor <;> linarith
  · have h := node_rate_sentinel_bounds
    rw [abs_lt]
    constructor <;> linarith [h.1, h.2]

/-- C2: every successfully parsed record has positive mean motion and its
checked semi-major axis query returns (mu / n^2)^(1/3) with
n = mean_motion * 2 * pi / 86400; on a record violating the precondition the
query fails with DomainError instead of producing a value. -/
theorem C2_sm_axis_contract :
    (∀ (line1 line2 : String) (nm : Option String) (t : TLE),
        from_tle line1 line2 nm = .ok t →
        0 < t.mean_motion ∧
        sm_axis_checked t =
          .ok (((mu : ℝ) / ((t.mean_motion : ℝ) * (2 * Real.pi) / 86400) ^ 2) ^
            ((1 : ℝ) / 3))) ∧
    (∀ t : TLE, t.mean_motion ≤ 0 → sm_axis_checked t = .error .domainError) := by
  constructor
  · intro l1 l2 nm t h
    have hmm : 0 < t.mean_motion := (from_tle_ok_inRange l1 l2 nm t h).2.2.2.2.2
    refine ⟨hmm, ?_⟩
    unfold sm_axis_checked
    rw [if_pos hmm]
    rfl
  · intro t h
    unfold sm_axis_checked
    rw [if_neg (not_lt.mpr h)]

/-- Witness for C2 at the Sentinel-2A record. -/
theorem C2_sm_axis_contract_witness :
    0 < sentinel.mean_motion ∧
    sm_axis_checked sentinel =
      .ok (((mu : ℝ) / ((sentinel.mean_motion : ℝ) * (2 * Real.pi) / 86400) ^ 2) ^
        ((1 : ℝ) / 3)) :=
  C2_sm_axis_contract.1 line1Str line2Str (some "Sentinel 2A") sentinel sentinel_parse

/-- C3: for every record the node rotation rate equals
-1.5 * n * J2 * (R_E / p)^2 * cos(inclination in radians), with p = a(1-e^2),
a the semi-major axis and e the eccentricity, converted to degrees per day. -/
theorem C3_node_rotation_rate_formula (t : TLE) :
    node_rotation_rate t =
      (-(3 / 2) * ((t.mean_motion : ℝ) * (2 * Real.pi) / 86400) * (j2 : ℝ) *
          ((r_earth : ℝ) / (sm_axis t * (1 - (t.eccentricity : ℝ) ^ 2))) ^ 2 *
          Real.cos ((t.inclination : ℝ) * Real.pi / 180)) * (180 / Real.pi) * 86400 := rfl

/-- Witness for C3 at the Sentinel-2A record. -/
theorem C3_node_rotation_rate_formula_witness :
    node_rotation_rate sentinel =
      (-(3 / 2) * ((sentinel.mean_motion : ℝ) * (2 * Real.pi) / 86400) * (j2 : ℝ) *
          ((r_earth : ℝ) / (sm_axis sentinel * (1 - (sentinel.eccentricity : ℝ) ^ 2))) ^ 2 *
          Real.cos ((sentinel.inclination : ℝ) * Real.pi / 180)) * (180 / Real.pi) * 86400 :=
  C3_node_rotation_rate_formula sentinel

/-- C4: the calculator exposes the ideal frozen-orbit eccentricity as a pure
query returning -(J3 * R_E * sin(inclination)) / (2 * J2 * a) for every
record; at the Sentinel-2A record its value matches the notebook output
0.0010318067048681323 to within 1e-6. -/
theorem C4_ideal_frozen_eccentricity_def :
    (∀ t : TLE,
        ideal_frozen_eccentricity t =
          -((j3 : ℝ) * (r_earth : ℝ) * Real.sin ((t.inclination : ℝ) * Real.pi / 180)) /
            (2 * (j2 : ℝ) * sm_axis t)) ∧
    |ideal_frozen_eccentricity sentinel - 0.0010318067048681323| < 0.000001 := by
  constructor
  · intro t
    rfl
  · have h := ideal_sentinel_bounds
    rw [abs_lt]
    constructor <;> linarith [h.1, h.2]

/-- Witness for C4 at the Sentinel-2A record. -/
theorem C4_ideal_frozen_eccentricity_def_witness :
    ideal_frozen_eccentricity sentinel =
      -((j3 : ℝ) * (r_earth : ℝ) * Real.sin ((sentinel.inclination : ℝ) * Real.pi / 180)) /
        (2 * (j2 : ℝ) * sm_axis sentinel) :=
  C4_ideal_frozen_eccentricity_def.1 sentinel

/-- C5 counterexample: the leading line-number character of line 1 is itself
a digit, and replacing it by the digit 3, without recomputing the checksum,
makes parsing fail with FormatError rather than the ChecksumError required by
the claim for every single-digit mutation. -/
theorem C5_counterexample :
    isDig (charAt line1Str.data 0) = true ∧
    isDig '3' = true ∧
    ('3' : Char) ≠ charAt line1Str.data 0 ∧
    from_tle (setChar line1Str 0 '3') line2Str (some "Sentinel 2A") = .error .formatError ∧
    TLEError.formatError ≠ TLEError.checksumError := by
  refine ⟨by decide, by decide, by decide, by decide, by decide⟩

/-- C5 (amended): for any successfully parsed TLE, replacing a single digit
at any position from 1 through 68 of either line by a different digit,
without recomputing the checksum, makes parsing fail with ChecksumError.
The claim as frozen also covers position 0, the leading line-number digit,
where the format check of step 1 fails first with FormatError. -/
theorem C5_single_digit_mutation :
    ∀ (line1 line2 : String) (nm : Option String) (r : TLE),
      from_tle line1 line2 nm = .ok r →
      ∀ (p : Nat) (c : Char), 1 ≤ p → p ≤ 68 → isDig c = true →
        (isDig (charAt line1.data p) = true → c ≠ charAt line1.data p →
          from_tle (setChar line1 p c) line2 nm = .error .checksumError) ∧
        (isDig (charAt line2.data p) = true → c ≠ charAt line2.data p →
          from_tle line1 (setChar line2 p c) nm = .error .checksumError) := by
  intro l1 l2 nm r h p c hp1 hp68 hc
  obtain ⟨hfmt, hck1, hck2⟩ := from_tle_ok_facts l1 l2 nm r h
  obtain ⟨hlen1, hlen2, hm1, hm2⟩ := hfmt
  constructor
  · intro hold hne
    have hdata : (setChar l1 p c).data = l1.data.set p c := rfl
    have hfalse : checksum_ok (l1.data.set p c) = false :=
      checksum_ok_set_false l1.data p c hlen1 hp68 hold hc hne hck1
    have hfmt' : formatOK (l1.data.set p c) l2.data := by
      refine ⟨by simp [hlen1], hlen2, ?_, hm2⟩
      rw [charAt_set_ne c l1.data p 0 (by omega)]
      exact hm1
    have hcore : parseCore (l1.data.set p c) l2.data = .error .checksumError := by
      apply parseCore_checksum_error _ _ hfmt'
      rw [hfalse]
      simp
    unfold from_tle
    rw [hdata, hcore]
    rfl
  · intro hold hne
    have hdata : (setChar l2 p c).data = l2.data.set p c := rfl
    have hfalse : checksum_ok (l2.data.set p c) = false :=
      checksum_ok_set_false l2.data p c hlen2 hp68 hold hc hne hck2
    have hfmt' : formatOK l1.data (l2.data.set p c) := by
      refine ⟨hlen1, by simp [hlen2], hm1, ?_⟩
      rw [charAt_set_ne c l2.data p 0 (by omega)]
      exact hm2
    have hcore : parseCore l1.data (l2.data.set p c) = .error .checksumError := by
      apply parseCore_checksum_error _ _ hfmt'
      rw [hfalse]
      simp
    unfold from_tle
    rw [hdata, hcore]
    rfl

/-- Witness for C5 at the Sentinel lines: replacing the digit 4 at position 2
of line 1 with 5 yields ChecksumError. -/
theorem C5_single_digit_mutation_witness :
    from_tle (setChar line1Str 2 '5') line2Str (some "Sentinel 2A") = .error .checksumError :=
  (C5_single_digit_mutation line1Str line2Str (some "Sentinel 2A") sentinel sentinel_parse
      2 '5' (by norm_num) (by norm_num) (by decide)).1 (by decide) (by decide)

/-- C6: when both lines pass the format and checksum checks and all fields
decode but the catalog numbers of the two lines differ, parsing fails with
ConsistencyError; and every successfully parsed record carries the common
catalog number extracted from both lines. -/
theorem C6_catalog_consistency :
    (∀ (line1 line2 : String) (nm : Option String) (f : RawFields),
        formatOK line1.data line2.data →
        checksum_ok line1.data = true → checksum_ok line2.data = true →
        extractFields line1.data line2.data = some f → f.cat1 ≠ f.cat2 →
        from_tle line1 line2 nm = .error .consistencyError) ∧
    (∀ (line1 line2 : String) (nm : Option String) (r : TLE),
        from_tle line1 line2 nm = .ok r →
        ∃ f, extractFields line1.data line2.data = some f ∧
          f.cat1 = f.cat2 ∧ r.catalog_number = f.cat1) := by
  constructor
  · intro l1 l2 nm f h1 h2 h3 hext hne
    have hcore := parseCore_consistency_error l1.data l2.data f h1 h2 h3 hext hne
    unfold from_tle
    rw [hcore]
    rfl
  · intro l1 l2 nm r h
    obtain ⟨f, hf, rfl⟩ := (from_tle_ok_iff _ _ _ _).mp h
    have hx := (parseCore_ok_iff _ _ f).mp hf
    exact ⟨f, hx.2.2.1, hx.2.2.2.1, rfl⟩

/-- Witness for C6: pairing the Sentinel line 1 with a checksum-correct
second line carrying catalog number 40698 yields ConsistencyError. -/
theorem C6_catalog_consistency_witness :
    from_tle line1Str line2CatStr (some "Sentinel 2A") = .error .consistencyError :=
  C6_catalog_consistency.1 line1Str line2CatStr (some "Sentinel 2A") sentinelRawCat
    (by decide) (by decide) (by decide) (by decide) (by decide)

/-- C7: every syntactically well-formed, checksum-correct TLE parses into a
fully populated record whose extracted fields lie in their declared ranges,
and parsing never fails with any error kind other than FormatError,
ChecksumError or ConsistencyError. -/
theorem C7_parse_totality :
    (∀ (line1 line2 : String) (nm : Option String),
        WellFormed line1.data line2.data →
        ∃ r, from_tle line1 line2 nm = .ok r ∧ InRange r) ∧
    (∀ (line1 line2 : String) (nm : Option String) (e : TLEError),
        from_tle line1 line2 nm = .error e →
        e = .formatError ∨ e = .checksumError ∨ e = .consistencyError) := by
  constructor
  · rintro l1 l2 nm ⟨h1, h2, h3, f, hext, hcat, hrange⟩
    refine ⟨buildRecord nm f, ?_, hrange⟩
    rw [from_tle_ok_iff]
    exact ⟨f, (parseCore_ok_iff _ _ f).mpr ⟨h1, ⟨h2, h3⟩, hext, hcat, hrange⟩, rfl⟩
  · intro l1 l2 nm e h
    unfold from_tle at h
    cases hcore : parseCore l1.data l2.data with
    | ok f =>
      rw [hcore] at h
      simp [Except.map] at h
    | error e2 =>
      rw [hcore] at h
      have he : e2 = e := by simpa [Except.map] using h
      subst he
      exact parseCore_error_kinds _ _ _ hcore

/-- Witness for C7 at the Sentinel lines. -/
theorem C7_parse_totality_witness :
    ∃ r, from_tle line1Str line2Str (some "Sentinel 2A") = .ok r ∧ InRange r :=
  C7_parse_totality.1 line1Str line2Str (some "Sentinel 2A")
    ⟨by decide, by decide, by decide, sentinelRaw, sentinel_extract, by decide, by decide⟩

/-- C8: for the Sentinel-2A record the ideal frozen-orbit eccentricity and
the actual eccentricity differ by less than one order of magnitude (each is
below ten times the other), and the argument of perigee lies within 10
degrees of 90 degrees. -/
theorem C8_frozen_orbit_closeness :
    ideal_frozen_eccentricity sentinel < 10 * (sentinel.eccentricity : ℝ) ∧
    (sentinel.eccentricity : ℝ) < 10 * ideal_frozen_eccentricity sentinel ∧
    |(sentinel.arg_perigee : ℝ) - 90| ≤ 10 := by
  have h := ideal_sentinel_bounds
  have he : ((sentinel.eccentricity : ℚ) : ℝ) = 0.0001206 := by
    rw [show sentinel.eccentricity = (0.0001206 : ℚ) from rfl]
    norm_num
  have hargp : ((sentinel.arg_perigee : ℚ) : ℝ) = 86.9662 := by
    rw [show sentinel.arg_perigee = (86.9662 : ℚ) from rfl]
    norm_num
  rw [he, hargp]
  refine ⟨?_, ?_, ?_⟩
  · linarith [h.2]
  · linarith [h.1]
  · rw [abs_le]
    constructor <;> norm_num

/-- C9: outputs are plain real scalars in the declared fixed units: every
parsed record has a dimensionless eccentricity in [0,1) and degree-valued
angle fields inside their degree ranges, and at the Sentinel-2A record the
semi-major axis and node rotation rate values sit at the kilometre and
degrees-per-day magnitudes printed by the notebook, with the angle accessors
returning the printed degree values. -/
theorem C9_scalar_outputs :
    (∀ (line1 line2 : String) (nm : Option String) (r : TLE),
        from_tle line1 line2 nm = .ok r →
        (0 ≤ r.eccentricity ∧ r.eccentricity < 1) ∧
        (0 ≤ r.inclination ∧ r.inclination ≤ 180) ∧
        (0 ≤ r.raan ∧ r.raan < 360) ∧
        (0 ≤ r.arg_perigee ∧ r.arg_perigee < 360) ∧
        (0 ≤ r.mean_anomaly ∧ r.mean_anomaly < 360)) ∧
    (7167 < sm_axis sentinel ∧ sm_axis sentinel < 7168) ∧
    (0.986 < node_rotation_rate sentinel ∧ node_rotation_rate sentinel < 0.988) ∧
    sentinel.inclination = 98.5692 ∧ sentinel.arg_perigee = 86.9662 := by
  refine ⟨?_, ⟨?_, ?_⟩, ⟨?_, ?_⟩, rfl, rfl⟩
  · intro l1 l2 nm r h
    have hx := from_tle_ok_inRange l1 l2 nm r h
    exact ⟨hx.1, hx.2.1, hx.2.2.1, hx.2.2.2.1, hx.2.2.2.2.1⟩
  · linarith [sm_axis_sentinel_lb]
  · linarith [sm_axis_sentinel_ub]
  · linarith [node_rate_sentinel_bounds.1]
  · linarith [node_rate_sentinel_bounds.2]

/-- Witness for C9 at the Sentinel-2A record. -/
theorem C9_scalar_outputs_witness :
    (0 ≤ sentinel.eccentricity ∧ sentinel.eccentricity < 1) ∧
    (0 ≤ sentinel.inclination ∧ sentinel.inclination ≤ 180) ∧
    (0 ≤ sentinel.raan ∧ sentinel.raan < 360) ∧
    (0 ≤ sentinel.arg_perigee ∧ sentinel.arg_perigee < 360) ∧
    (0 ≤ sentinel.mean_anomaly ∧ sentinel.mean_anomaly < 360) :=
  C9_scalar_outputs.1 line1Str line2Str (some "Sentinel 2A") sentinel sentinel_parse

/-- C10: the optional name argument influences only the stored label: two
parses of the same lines with different names agree on every other field and
on every derived quantity. -/
theorem C10_name_noninterference :
    ∀ (line1 line2 : String) (nm1 nm2 : Option String) (r1 r2 : TLE),
      from_tle line1 line2 nm1 = .ok r1 → from_tle line1 line2 nm2 = .ok r2 →
      sm_axis r1 = sm_axis r2 ∧ node_rotation_rate r1 = node_rotation_rate r2 ∧
      ideal_frozen_eccentricity r1 = ideal_frozen_eccentricity r2 ∧
      r1.eccentricity = r2.eccentricity ∧ r1.inclination = r2.inclination ∧
      r1.arg_perigee = r2.arg_perigee ∧ { r1 with name := r2.name } = r2 := by
  intro l1 l2 nm1 nm2 r1 r2 h1 h2
  obtain ⟨f1, hf1, rfl⟩ := (from_tle_ok_iff _ _ _ _).mp h1
  obtain ⟨f2, hf2, rfl⟩ := (from_tle_ok_iff _ _ _ _).mp h2
  have hext12 : f1 = f2 := by
    have e1 := (parseCore_ok_iff _ _ f1).mp hf1
    have e2 := (parseCore_ok_iff _ _ f2).mp hf2
    exact Option.some.inj (e1.2.2.1.symm.trans e2.2.2.1)
  subst hext12
  exact ⟨rfl, rfl, rfl, rfl, rfl, rfl, rfl⟩

/-- Witness for C10: parsing the Sentinel lines with and without a name
yields records agreeing on everything but the label. -/
theorem C10_name_noninterference_witness :
    sm_axis sentinel = sm_axis sentinelN ∧
    node_rotation_rate sentinel = node_rotation_rate sentinelN ∧
    ideal_frozen_eccentricity sentinel = ideal_frozen_eccentricity sentinelN ∧
    sentinel.eccentricity = sentinelN.eccentricity ∧
    sentinel.inclination = sentinelN.inclination ∧
    sentinel.arg_perigee = sentinelN.arg_perigee ∧
    { sentinel with name := sentinelN.name } = sentinelN :=
  C10_name_noninterference line1Str line2Str (some "Sentinel 2A") none sentinel sentinelN
    sentinel_parse sentinel_parse_noname

end ClaimTheorems

end Satmad
